import Mathlib

/-!
Verification of the route reconstruction and segmentation engine of the
sklo5 employee-tracking bot, as implemented in `fixed_map_generator.py`,
`bot.py` and `utils.py`.

Modelling conventions:
* Python floats are modelled as rationals (`ℚ`) for the computable
  pipeline and as reals (`ℝ`) for the trigonometric distance function.
* A Python timestamp is either a `datetime` (encoded as an integer that
  is strictly monotone in chronological order) or a raw string; the sum
  type `PyTime` captures this.
* Operations that can raise (`list.sort` on incomparable keys, division
  by zero) are modelled as `Option`-returning functions where `none`
  models the raised exception.
-/

set_option maxRecDepth 100000

namespace Sklo5

/-! ### Geo-math: speed (`bot.py` line 383, `utils.py` lines 287-305) -/

/-- `speed = (distance / time_diff) * 3.6 if time_diff > 0 else 0`.
Embeds `bot.py` line 383 and `utils.py` lines 293-296. -/
def speed_kmh (distance_m seconds : ℚ) : ℚ :=
  if 0 < seconds then distance_m / seconds * (36 / 10) else 0

/-- Python division; `none` models `ZeroDivisionError`. -/
def pyDiv (a b : ℚ) : Option ℚ :=
  if b = 0 then none else some (a / b)

/-- The speed computation as Python evaluates it: the division
`distance / time_diff` is only reached in the `time_diff > 0` branch of
the conditional expression. -/
def speed_kmh_run (distance_m seconds : ℚ) : Option ℚ :=
  if 0 < seconds then (pyDiv distance_m seconds).map (fun q => q * (36 / 10))
  else some 0

/-! ### Movement classifier (`bot.py`, `handle_location`, lines 313-401)

The classifier state lives in `context.chat_data[user_id]`; the fields
below are the ones the classifier reads and writes.  The previous sample
is the stored `last_location` dict with keys `latitude`, `longitude`,
`timestamp` (an ISO string). -/

structure LastLoc where
  latitude : ℚ
  longitude : ℚ
  timestamp : String
deriving DecidableEq

structure ChatState where
  movement_status : String
  stationary_duration : ℚ
  admin_notified : Bool
  speed : ℚ
  last_location : Option LastLoc
deriving DecidableEq

/-- Result of one `handle_location` pass: the updated chat state, the
`location_type` chosen for the new sample, and whether the 30-minute
stationary alert was sent to the admin during this pass. -/
structure LocUpdate where
  state : ChatState
  location_type : String
  alertSent : Bool
deriving DecidableEq

/-- One pass of the movement-classification part of `handle_location`
(`bot.py` lines 313-401).  `dist` abstracts the haversine distance
computed at lines 336-351 and `parseTime` abstracts
`datetime.fromisoformat` (line 354); both are pure in the source.

Python truthiness: the guard `if prev_lat and prev_lon and prev_time_str`
(line 334) rejects a previous sample whose latitude or longitude is `0.0`
or whose timestamp string is empty. -/
def handle_location_step (dist : ℚ → ℚ → ℚ → ℚ → ℚ) (parseTime : String → ℚ)
    (st : ChatState) (lat lon now : ℚ) (nowStr : String) : LocUpdate :=
  let newLast : Option LastLoc :=
    some { latitude := lat, longitude := lon, timestamp := nowStr }
  let finish : ChatState → String → Bool → LocUpdate := fun s t a =>
    { state := { s with last_location := newLast },
      location_type := t, alertSent := a }
  match st.last_location with
  | none => finish st "intermediate" false
  | some prev =>
    if prev.latitude ≠ 0 ∧ prev.longitude ≠ 0 ∧ prev.timestamp ≠ "" then
      let d := dist prev.latitude prev.longitude lat lon
      let dt := now - parseTime prev.timestamp
      if d < 10 then
        let dur := st.stationary_duration + dt
        if 300 < dur then
          if 1800 < dur ∧ st.admin_notified = false then
            finish { st with stationary_duration := dur,
                             movement_status := "stationary",
                             admin_notified := true } "stationary" true
          else
            finish { st with stationary_duration := dur,
                             movement_status := "stationary" } "stationary" false
        else
          finish { st with stationary_duration := dur } "intermediate" false
      else
        finish { st with movement_status := "moving", stationary_duration := 0,
                         admin_notified := false,
                         speed := speed_kmh d dt } "moving" false
    else
      finish st "intermediate" false

/-- The per-point movement status as derived for rendering in
`utils.py`, `create_map_for_user`, lines 310-329: a `moving` point whose
computed speed exceeds 50 km/h is displayed as `fast_moving`. -/
def render_movement_status (loc_type : String) (speed : ℚ) : String :=
  if loc_type = "start" then "start"
  else if loc_type = "end" then "end"
  else if loc_type = "stationary" then "stationary"
  else if loc_type = "moving" then
    if 50 < speed then "fast_moving" else "moving"
  else "unknown"

/-! ### Timestamps (`fixed_map_generator.py`)

The map generator receives timestamps either as `datetime` objects or as
strings.  A `datetime` is encoded as an integer that is strictly
monotone in chronological order (within one calendar day the encoding
differs by the exact number of seconds). -/

inductive PyTime where
  | dt (t : Int)
  | str (s : String)
deriving DecidableEq

/-- Days in a month, with the Gregorian leap-year rule, as checked by
`datetime.strptime`. -/
def daysInMonth (y m : Nat) : Nat :=
  if m = 2 then (if y % 4 = 0 ∧ (y % 100 ≠ 0 ∨ y % 400 = 0) then 29 else 28)
  else if m = 4 ∨ m = 6 ∨ m = 9 ∨ m = 11 then 30 else 31

/-- Chronologically monotone integer encoding of a datetime. -/
def encodeDt (y mo da ho mi se : Nat) : Int :=
  ((((↑y * 13 + ↑mo) * 32 + ↑da) * 24 + ↑ho) * 60 + ↑mi) * 60 + ↑se

/-- `datetime.strptime(s, "%Y-%m-%d %H:%M:%S")` for the canonical
zero-padded 19-character layout produced by the storage layer;
`none` models the raised `ValueError`. -/
def parseTs (s : String) : Option Int :=
  match s.data with
  | [y1, y2, y3, y4, h1, mo1, mo2, h2, da1, da2, sp, ho1, ho2, c1, mi1, mi2, c2, se1, se2] =>
    if h1 = '-' ∧ h2 = '-' ∧ sp = ' ' ∧ c1 = ':' ∧ c2 = ':' ∧
        y1.isDigit ∧ y2.isDigit ∧ y3.isDigit ∧ y4.isDigit ∧
        mo1.isDigit ∧ mo2.isDigit ∧ da1.isDigit ∧ da2.isDigit ∧
        ho1.isDigit ∧ ho2.isDigit ∧ mi1.isDigit ∧ mi2.isDigit ∧
        se1.isDigit ∧ se2.isDigit then
      let y := ((y1.toNat - 48) * 10 + (y2.toNat - 48)) * 100 +
        ((y3.toNat - 48) * 10 + (y4.toNat - 48))
      let mo := (mo1.toNat - 48) * 10 + (mo2.toNat - 48)
      let da := (da1.toNat - 48) * 10 + (da2.toNat - 48)
      let ho := (ho1.toNat - 48) * 10 + (ho2.toNat - 48)
      let mi := (mi1.toNat - 48) * 10 + (mi2.toNat - 48)
      let se := (se1.toNat - 48) * 10 + (se2.toNat - 48)
      if 1 ≤ mo ∧ mo ≤ 12 ∧ 1 ≤ da ∧ da ≤ daysInMonth y mo ∧
          ho ≤ 23 ∧ mi ≤ 59 ∧ se ≤ 59 then
        some (encodeDt y mo da ho mi se)
      else none
    else none
  | _ => none

/-- `timestamp[:19]` applied by the generator to string timestamps
(`fixed_map_generator.py` lines 233-234, 261-262). -/
def trunc19 : PyTime → PyTime
  | .str s => .str (s.take 19)
  | .dt t => .dt t

/-- `safe_sort_key` (`fixed_map_generator.py` lines 278-287): a string
key is parsed to a datetime when possible, otherwise kept as the raw
string; a datetime key is returned unchanged. -/
def safe_sort_key (time_key : PyTime) : PyTime :=
  match time_key with
  | .str s =>
    match parseTs (s.take 19) with
    | some t => .dt t
    | none => .str s
  | .dt t => .dt t

/-! ### Python list sorting

`list.sort(key=...)` compares keys with `<`.  Comparing a `datetime`
with a `str` raises `TypeError`; a sort of a list whose keys mix the two
kinds therefore raises (with at least one key of each kind present, the
sort must compare two keys of different kinds to order them).  Sorting is
modelled as an `Option`, `none` standing for the raised `TypeError`, and
with a stable insertion sort mirroring the stability of Python's sort. -/

def isDt : PyTime → Bool
  | .dt _ => true
  | .str _ => false

/-- Python's `<` on strings: lexicographic comparison by code point. -/
def charListLt : List Char → List Char → Bool
  | [], [] => false
  | [], _ :: _ => true
  | _ :: _, [] => false
  | a :: as, b :: bs =>
    if a.toNat < b.toNat then true
    else if b.toNat < a.toNat then false
    else charListLt as bs

def strLt (a b : String) : Bool := charListLt a.data b.data

/-- `<` on two timestamp keys of the same kind (the only case a
successful Python sort exercises). -/
def ltKey : PyTime → PyTime → Bool
  | .dt a, .dt b => a < b
  | .str a, .str b => strLt a b
  | _, _ => false

/-- All keys of the list are mutually comparable: all datetimes or all
strings. -/
def timesComparable (l : List PyTime) : Bool :=
  l.all isDt || l.all (fun t => ! isDt t)

/-- Insert `x` after every element not strictly greater than it; folding
this from the left is a stable sort. -/
def insertByLt (lt : α → α → Bool) (x : α) : List α → List α
  | [] => [x]
  | y :: ys => if lt x y then x :: y :: ys else y :: insertByLt lt x ys

def stableSortBy (lt : α → α → Bool) (l : List α) : List α :=
  l.foldl (fun acc x => insertByLt lt x acc) []

/-- `sorted(l, key=key)` / `l.sort(key=key)` with a `PyTime`-valued key:
`none` models the `TypeError` raised on mixed datetime/str keys. -/
def pySortByKey (key : α → PyTime) (l : List α) : Option (List α) :=
  if timesComparable (l.map key) then
    some (stableSortBy (fun a b => ltKey (key a) (key b)) l)
  else none

/-! ### Rows and events (`fixed_map_generator.py`, `create_direct_map`) -/

/-- A validated location row `(lat, lon, time_str, session_id, loc_type)`
as produced by `get_locations_from_db` (lines 98-117); coordinates have
already been converted to numbers and range-checked there. -/
structure LocRow where
  latitude : ℚ
  longitude : ℚ
  timestamp : PyTime
  session_id : String
  location_type : String
deriving DecidableEq

/-- A status-history row; of the four selected columns only `status` and
`timestamp` are consumed by the generator. -/
structure StatusRow where
  status : String
  timestamp : PyTime
deriving DecidableEq

/-- An entry of `location_events`:
`(time_key, lat, lon, loc_type, timestamp)` (line 264). -/
structure LocEvent where
  time_key : PyTime
  latitude : ℚ
  longitude : ℚ
  location_type : String
  timestamp : PyTime
deriving DecidableEq

/-- An entry of `all_events` (lines 270-275): a tagged status or
location event. -/
inductive Event where
  | status (time_key : PyTime) (st : String)
  | location (e : LocEvent)
deriving DecidableEq

def eventKey : Event → PyTime
  | .status tk _ => tk
  | .location e => e.time_key

/-- `status_events` construction and sort (lines 229-238): millisecond
suffixes of string timestamps are stripped, then the list is sorted by
the raw time value. -/
def statusEvents (statuses : List StatusRow) : Option (List (PyTime × String)) :=
  pySortByKey (fun p => p.1)
    (statuses.map (fun r => (trunc19 r.timestamp, r.status)))

/-- The sort of `valid_locations` by raw timestamp (line 243). -/
def sortLocations (locs : List LocRow) : Option (List LocRow) :=
  pySortByKey (fun r => r.timestamp) locs

/-- `location_events` construction and sort (lines 246-267). -/
def locationEvents (locs : List LocRow) : Option (List LocEvent) := do
  let sorted ← sortLocations locs
  let evs := sorted.map (fun r =>
    { time_key := trunc19 r.timestamp, latitude := r.latitude,
      longitude := r.longitude, location_type := r.location_type,
      timestamp := r.timestamp : LocEvent })
  pySortByKey (fun e => e.time_key) evs

/-- `all_events` merge and the sort with `safe_sort_key`
(lines 269-290). -/
def mergeEvents (sevs : List (PyTime × String)) (levs : List LocEvent) :
    Option (List Event) :=
  pySortByKey (fun ev => safe_sort_key (eventKey ev))
    (sevs.map (fun p => Event.status p.1 p.2) ++ levs.map Event.location)

/-! ### Status-change marker placement (lines 312-334)

For a status change at `time_key` the code sorts `location_events` by
the key `abs(len(str(x[0])[:19]) - len(status_time_str))` when `x[0]` is
a string, else `9999`, and takes the first element of the sorted list.
The key compares string LENGTHS; `sorted(...)[0]` of a stable sort is
the first element attaining the minimal key, which `firstMinBy`
computes directly. -/

/-- `len(str(time_key)[:19])`: for a string this is `min(len, 19)`; the
`str()` of a `datetime` starts with its 19-character date-time prefix. -/
def pyStrLen19 : PyTime → Nat
  | .str s => (s.take 19).length
  | .dt _ => 19

/-- The sort key of line 322: `abs(len(str(x[0])[:19]) - len(status_time_str))`
for string time keys, `9999` otherwise. -/
def lenKey (statusLen : Nat) (e : LocEvent) : Nat :=
  match e.time_key with
  | .str s => (((s.take 19).length : Int) - (statusLen : Int)).natAbs
  | .dt _ => 9999

/-- First element of the list attaining the minimal key — the head of a
stable sort by that key. -/
def firstMinBy (key : α → Nat) : List α → Option α
  | [] => none
  | x :: xs =>
    match firstMinBy key xs with
    | none => some x
    | some y => if key y < key x then some y else some x

/-- The location event the generator attaches the status-change marker
to (lines 313-327); `none` when `location_events` is empty (no marker is
drawn, lines 313 and 325). -/
def statusMarkerLocation (levs : List LocEvent) (time_key : PyTime) :
    Option LocEvent :=
  firstMinBy (lenKey (pyStrLen19 time_key)) levs

/-! ### Segmentation loop (lines 292-405) and segment rendering
(lines 407-477) -/

structure SegState where
  /-- `path_segments`. -/
  path_segments : List (List (ℚ × ℚ))
  /-- Instrumentation: the value of `current_status` at the moment each
  segment was appended to `path_segments` (the status that was current
  while its points were accumulated). -/
  seg_statuses : List String
  /-- `current_segment`. -/
  current_segment : List (ℚ × ℚ)
  /-- `current_status`. -/
  current_status : String
  /-- Status-change markers added at line 329: position and new status. -/
  change_markers : List ((ℚ × ℚ) × String)
  /-- Per-point markers added at lines 360-401: position, `loc_type`,
  and the `current_status` displayed in the tooltip. -/
  point_markers : List ((ℚ × ℚ) × String × String)
deriving DecidableEq

def initSegState : SegState :=
  { path_segments := [], seg_statuses := [], current_segment := [],
    current_status := "Неизвестно", change_markers := [], point_markers := [] }

/-- One iteration of the `for event in all_events` loop
(lines 298-401). -/
def segStep (levs : List LocEvent) (st : SegState) (ev : Event) : SegState :=
  match ev with
  | .status tk s =>
    let st1 :=
      if st.current_segment ≠ [] then
        { st with path_segments := st.path_segments ++ [st.current_segment],
                  seg_statuses := st.seg_statuses ++ [st.current_status],
                  current_segment := [] }
      else st
    let st2 := { st1 with current_status := s }
    match statusMarkerLocation levs tk with
    | some e =>
      { st2 with change_markers :=
          st2.change_markers ++ [((e.latitude, e.longitude), s)] }
    | none => st2
  | .location e =>
    { st with
        current_segment := st.current_segment ++ [(e.latitude, e.longitude)],
        point_markers := st.point_markers ++
          [((e.latitude, e.longitude), e.location_type, st.current_status)] }

/-- The whole loop followed by the final flush of a non-empty
`current_segment` (lines 403-405). -/
def runSegmentation (levs : List LocEvent) (events : List Event) : SegState :=
  let st := events.foldl (segStep levs) initSegState
  if st.current_segment ≠ [] then
    { st with path_segments := st.path_segments ++ [st.current_segment],
              seg_statuses := st.seg_statuses ++ [st.current_status] }
  else st

/-- Segments drawn as polylines: only those with at least two points
(`if len(segment) > 1`, line 412). -/
def polylines (st : SegState) : List (List (ℚ × ℚ)) :=
  st.path_segments.filter (fun s => 1 < s.length)

/-- The status written into every rendered segment's popup and tooltip
(lines 432-473): the loop variable `current_status`, read after the
event loop has finished, hence the same final value for every segment. -/
def polylineLabels (st : SegState) : List String :=
  (polylines st).map (fun _ => st.current_status)

/-! ### `create_direct_map` top level (lines 119-508) -/

/-- The rendered map, reduced to the data the claims are about.  A
`none` result of `createDirectMap` models an uncaught exception. -/
structure Artifact where
  center : ℚ × ℚ
  /-- The gray "no data" marker of the empty-input branch (lines 156-161). -/
  no_data_marker : Bool
  /-- The blue status-only marker (lines 215-220). -/
  status_info_marker : Bool
  seg : SegState
  /-- Global route start/end markers (lines 480-501). -/
  route_ends : Option ((ℚ × ℚ) × (ℚ × ℚ))
deriving DecidableEq

/-- Default map center (Moscow), lines 150 and 188-189. -/
def moscow : ℚ × ℚ := (557558 / 10000, 376173 / 10000)

/-- `create_direct_map` (lines 119-508) over already-fetched validated
rows; the returned artifact records the markers, segments and polylines
added to the folium map, and `none` models an exception escaping the
function. -/
def createDirectMap (locs : List LocRow) (statuses : List StatusRow) :
    Option Artifact :=
  if locs = [] ∧ statuses = [] then
    some { center := moscow, no_data_marker := true, status_info_marker := false,
           seg := initSegState, route_ends := none }
  else
    let center : ℚ × ℚ :=
      if locs ≠ [] then
        ((locs.map (fun r => r.latitude)).sum / (locs.length : ℚ),
         (locs.map (fun r => r.longitude)).sum / (locs.length : ℚ))
      else moscow
    if locs = [] then
      some { center := center, no_data_marker := false,
             status_info_marker := true, seg := initSegState,
             route_ends := none }
    else do
      let sevs ← statusEvents statuses
      let levs ← locationEvents locs
      let events ← mergeEvents sevs levs
      let st := runSegmentation levs events
      let ends : Option ((ℚ × ℚ) × (ℚ × ℚ)) :=
        match levs.head?, levs.getLast? with
        | some a, some b =>
          some ((a.latitude, a.longitude), (b.latitude, b.longitude))
        | _, _ => none
      some { center := center, no_data_marker := false,
             status_info_marker := false, seg := st, route_ends := ends }

/-! ### Haversine distance (`bot.py` lines 336-351, `utils.py` lines
268-283), over the reals -/

/-- `math.atan2 y x`. -/
noncomputable def atan2 (y x : ℝ) : ℝ :=
  if 0 < x then Real.arctan (y / x)
  else if x < 0 ∧ 0 ≤ y then Real.arctan (y / x) + Real.pi
  else if x < 0 then Real.arctan (y / x) - Real.pi
  else if 0 < y then Real.pi / 2
  else if y < 0 then -(Real.pi / 2)
  else 0

/-- The intermediate value `a` of the haversine formula;
`radians(x) = x * π / 180`. -/
noncomputable def havA (lat1 lon1 lat2 lon2 : ℝ) : ℝ :=
  Real.sin ((lat2 * Real.pi / 180 - lat1 * Real.pi / 180) / 2) ^ 2 +
    Real.cos (lat1 * Real.pi / 180) * Real.cos (lat2 * Real.pi / 180) *
      Real.sin ((lon2 * Real.pi / 180 - lon1 * Real.pi / 180) / 2) ^ 2

/-- The haversine distance in metres with Earth radius 6,371,000 m,
exactly as computed at `bot.py` lines 338-351 / `utils.py` 270-283:
`c = 2 * atan2(sqrt(a), sqrt(1 - a))`, `distance = R * c`. -/
noncomputable def haversine_distance (lat1 lon1 lat2 lon2 : ℝ) : ℝ :=
  6371000 * (2 * atan2 (Real.sqrt (havA lat1 lon1 lat2 lon2))
    (Real.sqrt (1 - havA lat1 lon1 lat2 lon2)))

/-! ### Spec-side definition for the nearest-match refinement check -/

/-- The chronological value of a time key, for the specification-side
nearest-in-time definition (all timestamps of interest parse). -/
def specTime : PyTime → Int
  | .dt t => t
  | .str s => (parseTs (s.take 19)).getD 0

/-- Written after the spec's words (§4.3): "picks the location sample
whose timestamp is closest to `t`. Tie-break: the earlier sample wins.
If `locations` empty, returns `None`."  On a chronologically ordered
list the earlier of two tied samples is the first one, which
`firstMinBy` selects. -/
def nearestLocationSpec (levs : List LocEvent) (t : PyTime) : Option LocEvent :=
  firstMinBy (fun e => (specTime e.time_key - specTime t).natAbs) levs

/-! ### Helper functions and loop invariants for the segmentation
theorems -/

def isStatusEvent : Event → Bool
  | .status _ _ => true
  | .location _ => false

/-- The `(lat, lon)` pair a location event contributes. -/
def locPoint : Event → Option (ℚ × ℚ)
  | .location e => some (e.latitude, e.longitude)
  | .status _ _ => none

/-- The status a status event carries. -/
def statusOf : Event → Option String
  | .status _ s => some s
  | .location _ => none

/-- The last status of the timeline, or the given default when the
timeline has no status event. -/
def lastStatusOf (events : List Event) (dflt : String) : String :=
  (events.filterMap statusOf).getLastD dflt

lemma segStep_status_closes (levs : List LocEvent) (st : SegState)
    (tk : PyTime) (s : String) :
    (segStep levs st (.status tk s)).path_segments =
      (if st.current_segment ≠ [] then st.path_segments ++ [st.current_segment]
       else st.path_segments) ∧
    (segStep levs st (.status tk s)).current_segment = [] ∧
    (segStep levs st (.status tk s)).current_status = s ∧
    (segStep levs st (.status tk s)).point_markers = st.point_markers := by
  simp only [segStep]
  cases h : statusMarkerLocation levs tk with
  | none =>
    by_cases hc : st.current_segment = []
    · simp [hc]
    · simp [hc]
  | some e =>
    by_cases hc : st.current_segment = []
    · simp [hc]
    · simp [hc]

lemma segStep_location_appends (levs : List LocEvent) (st : SegState)
    (e : LocEvent) :
    (segStep levs st (.location e)).path_segments = st.path_segments ∧
    (segStep levs st (.location e)).current_segment =
      st.current_segment ++ [(e.latitude, e.longitude)] ∧
    (segStep levs st (.location e)).current_status = st.current_status ∧
    (segStep levs st (.location e)).point_markers =
      st.point_markers ++ [((e.latitude, e.longitude), e.location_type,
        st.current_status)] := by
  simp [segStep]

lemma lastStatusOf_cons_status (tk : PyTime) (s : String)
    (evs : List Event) (d : String) :
    lastStatusOf (Event.status tk s :: evs) d = lastStatusOf evs s := by
  unfold lastStatusOf
  rw [show List.filterMap statusOf (Event.status tk s :: evs) =
    s :: List.filterMap statusOf evs from rfl, List.getLastD_cons]

lemma lastStatusOf_cons_location (e : LocEvent) (evs : List Event)
    (d : String) :
    lastStatusOf (Event.location e :: evs) d = lastStatusOf evs d := rfl

/-- Loop invariant: the concatenation of the closed segments followed by
the open one is the initial material plus every location point of the
processed events, in order. -/
lemma foldSeg_join (levs : List LocEvent) (events : List Event)
    (st : SegState) :
    (events.foldl (segStep levs) st).path_segments.flatten ++
        (events.foldl (segStep levs) st).current_segment =
      st.path_segments.flatten ++ st.current_segment ++
        events.filterMap locPoint := by
  induction events generalizing st with
  | nil => simp
  | cons ev evs ih =>
    rw [List.foldl_cons, ih]
    cases ev with
    | status tk s =>
      obtain ⟨h1, h2, _, _⟩ := segStep_status_closes levs st tk s
      rw [h1, h2]
      by_cases hc : st.current_segment = []
      · simp [hc, locPoint, List.append_assoc]
      · simp [hc, locPoint, List.append_assoc]
    | location e =>
      obtain ⟨h1, h2, _, _⟩ := segStep_location_appends levs st e
      rw [h1, h2]
      simp [locPoint, List.append_assoc]

/-- Loop invariant: each processed status event closes at most one
segment. -/
lemma foldSeg_length (levs : List LocEvent) (events : List Event)
    (st : SegState) :
    (events.foldl (segStep levs) st).path_segments.length ≤
      st.path_segments.length + (events.filter isStatusEvent).length := by
  induction events generalizing st with
  | nil => simp
  | cons ev evs ih =>
    rw [List.foldl_cons]
    cases ev with
    | status tk s =>
      refine le_trans (ih _) ?_
      obtain ⟨h1, _, _, _⟩ := segStep_status_closes levs st tk s
      rw [h1]
      by_cases hc : st.current_segment = []
      · simp [hc, isStatusEvent]
      · simp [hc, isStatusEvent]
        omega
    | location e =>
      refine le_trans (ih _) ?_
      obtain ⟨h1, _, _, _⟩ := segStep_location_appends levs st e
      rw [h1]
      simp [isStatusEvent]

/-- Loop invariant: `current_status` after the loop is the status of the
last status event, or the incoming status when there is none. -/
lemma foldSeg_status (levs : List LocEvent) (events : List Event)
    (st : SegState) :
    (events.foldl (segStep levs) st).current_status =
      lastStatusOf events st.current_status := by
  induction events generalizing st with
  | nil => simp [lastStatusOf]
  | cons ev evs ih =>
    rw [List.foldl_cons, ih]
    cases ev with
    | status tk s =>
      obtain ⟨_, _, h3, _⟩ := segStep_status_closes levs st tk s
      rw [h3, lastStatusOf_cons_status]
    | location e =>
      obtain ⟨_, _, h3, _⟩ := segStep_location_appends levs st e
      rw [h3, lastStatusOf_cons_location]

/-- Loop invariant: every location event adds exactly one point marker,
at its own coordinates, in order. -/
lemma foldSeg_markers (levs : List LocEvent) (events : List Event)
    (st : SegState) :
    (events.foldl (segStep levs) st).point_markers.map (fun m => m.1) =
      st.point_markers.map (fun m => m.1) ++ events.filterMap locPoint := by
  induction events generalizing st with
  | nil => simp
  | cons ev evs ih =>
    rw [List.foldl_cons, ih]
    cases ev with
    | status tk s =>
      obtain ⟨_, _, _, h4⟩ := segStep_status_closes levs st tk s
      simp [h4, locPoint]
    | location e =>
      obtain ⟨_, _, _, h4⟩ := segStep_location_appends levs st e
      simp [h4, locPoint]

/-- Loop invariant: only non-empty segments are ever pushed. -/
lemma foldSeg_nonempty (levs : List LocEvent) (events : List Event)
    (st : SegState) (h : ∀ s ∈ st.path_segments, s ≠ []) :
    ∀ s ∈ (events.foldl (segStep levs) st).path_segments, s ≠ [] := by
  induction events generalizing st with
  | nil => exact h
  | cons ev evs ih =>
    rw [List.foldl_cons]
    refine ih _ ?_
    cases ev with
    | status tk s =>
      obtain ⟨h1, _, _, _⟩ := segStep_status_closes levs st tk s
      rw [h1]
      by_cases hc : st.current_segment = []
      · rw [if_neg (not_not_intro hc)]
        exact h
      · rw [if_pos hc]
        intro t ht
        rcases List.mem_append.1 ht with h' | h'
        · exact h t h'
        · rw [List.mem_singleton.1 h']
          exact hc
    | location e =>
      obtain ⟨h1, _, _, _⟩ := segStep_location_appends levs st e
      rw [h1]
      exact h

/-- C1: for every merged timeline, the segmentation loop produces at
most (number of status events) + 1 segments, and the concatenation of
the segment point-lists is exactly the timeline's location points in
order — none dropped, duplicated or reordered. -/
theorem c1_segmentation_partition (levs : List LocEvent)
    (events : List Event) :
    (runSegmentation levs events).path_segments.length ≤
      (events.filter isStatusEvent).length + 1 ∧
    (runSegmentation levs events).path_segments.flatten =
      events.filterMap locPoint := by
  have hjoin := foldSeg_join levs events initSegState
  have hlen := foldSeg_length levs events initSegState
  have e1 : initSegState.path_segments = [] := rfl
  have e2 : initSegState.current_segment = [] := rfl
  rw [e1, e2] at hjoin
  rw [e1] at hlen
  simp only [List.flatten_nil, List.nil_append, List.length_nil,
    Nat.zero_add] at hjoin hlen
  by_cases hc : (events.foldl (segStep levs) initSegState).current_segment = []
  · have hrun : runSegmentation levs events =
        events.foldl (segStep levs) initSegState := by
      simp [runSegmentation, hc]
    rw [hrun]
    refine ⟨le_trans hlen (Nat.le_succ _), ?_⟩
    rw [← hjoin, hc, List.append_nil]
  · have hrun : (runSegmentation levs events).path_segments =
        (events.foldl (segStep levs) initSegState).path_segments ++
          [(events.foldl (segStep levs) initSegState).current_segment] := by
      simp [runSegmentation, hc]
    rw [hrun]
    constructor
    · rw [List.length_append, List.length_singleton]
      omega
    · rw [List.flatten_append, List.flatten_singleton]
      exact hjoin

lemma runSegmentation_status (levs : List LocEvent) (events : List Event) :
    (runSegmentation levs events).current_status =
      (events.foldl (segStep levs) initSegState).current_status := by
  by_cases hc : (events.foldl (segStep levs) initSegState).current_segment = []
  · simp [runSegmentation, hc]
  · simp [runSegmentation, hc]

lemma runSegmentation_point_markers (levs : List LocEvent)
    (events : List Event) :
    (runSegmentation levs events).point_markers =
      (events.foldl (segStep levs) initSegState).point_markers := by
  by_cases hc : (events.foldl (segStep levs) initSegState).current_segment = []
  · simp [runSegmentation, hc]
  · simp [runSegmentation, hc]

/-- C4 (amended): the status written into every rendered segment's
tooltip is the loop's final `current_status` — the last status event's
status, or the initial default — the same for all segments, not the
per-segment one; segments with fewer than two points are excluded from
polyline drawing, no pushed segment is empty, and every location point
(in particular the sole point of a single-point segment) received its
own marker during the event pass. -/
theorem c4_amended_render_labels (levs : List LocEvent)
    (events : List Event) :
    polylineLabels (runSegmentation levs events) =
      List.replicate (polylines (runSegmentation levs events)).length
        (lastStatusOf events "Неизвестно") ∧
    polylines (runSegmentation levs events) =
      (runSegmentation levs events).path_segments.filter
        (fun s => 1 < s.length) ∧
    (runSegmentation levs events).point_markers.map (fun m => m.1) =
      events.filterMap locPoint ∧
    [] ∉ (runSegmentation levs events).path_segments := by
  have hstat : (runSegmentation levs events).current_status =
      lastStatusOf events "Неизвестно" := by
    rw [runSegmentation_status]
    have := foldSeg_status levs events initSegState
    rwa [show initSegState.current_status = "Неизвестно" from rfl] at this
  refine ⟨?_, rfl, ?_, ?_⟩
  · rw [polylineLabels, hstat]
    exact List.map_const' _ _
  · rw [runSegmentation_point_markers]
    have := foldSeg_markers levs events initSegState
    rwa [show initSegState.point_markers.map (fun m => m.1) = [] from rfl,
      List.nil_append] at this
  · have hne := foldSeg_nonempty levs events initSegState
      (by intro s hs; simp [initSegState] at hs)
    by_cases hc :
        (events.foldl (segStep levs) initSegState).current_segment = []
    · have hrun : runSegmentation levs events =
          events.foldl (segStep levs) initSegState := by
        simp [runSegmentation, hc]
      rw [hrun]
      intro hmem
      exact hne [] hmem rfl
    · have hps : (runSegmentation levs events).path_segments =
          (events.foldl (segStep levs) initSegState).path_segments ++
            [(events.foldl (segStep levs) initSegState).current_segment] := by
        simp [runSegmentation, hc]
      rw [hps]
      intro hmem
      rcases List.mem_append.1 hmem with h | h
      · exact hne [] h rfl
      · exact hc (List.mem_singleton.1 h).symm

/-- A location event whose time key is the given canonical timestamp
string. -/
def mkLev (ts : String) (lat lon : ℚ) : LocEvent :=
  { time_key := .str ts, latitude := lat, longitude := lon,
    location_type := "intermediate", timestamp := .str ts }

def c4Levs : List LocEvent :=
  [mkLev "2025-05-07 08:10:00" 55 37,
   mkLev "2025-05-07 08:20:00" (551 / 10) (371 / 10),
   mkLev "2025-05-07 09:10:00" (552 / 10) (372 / 10),
   mkLev "2025-05-07 09:20:00" (553 / 10) (373 / 10)]

/-- A two-status timeline: two points accumulated under `office`, then
two under `home`. -/
def c4Events : List Event :=
  [Event.status (.str "2025-05-07 08:00:00") "office",
   Event.location (mkLev "2025-05-07 08:10:00" 55 37),
   Event.location (mkLev "2025-05-07 08:20:00" (551 / 10) (371 / 10)),
   Event.status (.str "2025-05-07 09:00:00") "home",
   Event.location (mkLev "2025-05-07 09:10:00" (552 / 10) (372 / 10)),
   Event.location (mkLev "2025-05-07 09:20:00" (553 / 10) (373 / 10))]

/-- C4 counterexample: the first segment's points were accumulated while
`current_status` was `office`, yet both rendered segments carry the
label `home` — the loop's final status — so a segment's rendering
status is not the status current during its accumulation. -/
theorem c4_counterexample_stale_label :
    (runSegmentation c4Levs c4Events).seg_statuses = ["office", "home"] ∧
    polylineLabels (runSegmentation c4Levs c4Events) = ["home", "home"] ∧
    ("office" : String) ≠ "home" := by decide

/-- Witness instantiating the amended C4 theorem at the two-status
timeline. -/
theorem c4_amended_render_labels_witness :
    polylineLabels (runSegmentation c4Levs c4Events) =
      List.replicate (polylines (runSegmentation c4Levs c4Events)).length
        (lastStatusOf c4Events "Неизвестно") ∧
    polylines (runSegmentation c4Levs c4Events) =
      (runSegmentation c4Levs c4Events).path_segments.filter
        (fun s => 1 < s.length) ∧
    (runSegmentation c4Levs c4Events).point_markers.map (fun m => m.1) =
      c4Events.filterMap locPoint ∧
    [] ∉ (runSegmentation c4Levs c4Events).path_segments :=
  c4_amended_render_labels c4Levs c4Events

/-! ### Scenario D (spec §8): two statuses, ten points in between -/

/-- A validated location row with the given canonical timestamp. -/
def mkRow (ts : String) (lat lon : ℚ) : LocRow :=
  { latitude := lat, longitude := lon, timestamp := .str ts,
    session_id := "s", location_type := "intermediate" }

/-- Ten location points between 08:05 and 16:55. -/
def dLocs : List LocRow :=
  [mkRow "2025-05-07 08:05:00" 55 37,
   mkRow "2025-05-07 09:00:00" 56 38,
   mkRow "2025-05-07 10:00:00" 57 39,
   mkRow "2025-05-07 11:00:00" 58 40,
   mkRow "2025-05-07 12:00:00" 59 41,
   mkRow "2025-05-07 13:00:00" 60 42,
   mkRow "2025-05-07 14:00:00" 61 43,
   mkRow "2025-05-07 15:00:00" 62 44,
   mkRow "2025-05-07 16:00:00" 63 45,
   mkRow "2025-05-07 16:55:00" 64 46]

/-- `office` at 08:00, `home` at 17:00. -/
def dStats : List StatusRow :=
  [{ status := "office", timestamp := .str "2025-05-07 08:00:00" },
   { status := "home", timestamp := .str "2025-05-07 17:00:00" }]

/-- The ten points of `dLocs`, in chronological order. -/
def dPoints : List (ℚ × ℚ) :=
  [(55, 37), (56, 38), (57, 39), (58, 40), (59, 41),
   (60, 42), (61, 43), (62, 44), (63, 45), (64, 46)]

/-- C3 counterexample: on Scenario D the generator produces exactly ONE
segment, not the claimed two — the trailing empty segment is never
pushed (`if current_segment:` guards both pushes). -/
theorem c3_counterexample_one_segment :
    (createDirectMap dLocs dStats).map
        (fun a => a.seg.path_segments.length) = some 1 ∧
    (1 : ℕ) ≠ 2 := by decide

/-- C3 (amended): Scenario D yields exactly one segment holding all ten
points; it is drawn as a polyline, but its rendered status label is
`home` (the final status), and both status-change markers — `office`
and `home` alike — are placed at the FIRST location point (08:05), the
sample selected by the implementation's string-length comparison, not at
the nearest-in-time last point. -/
theorem c3_amended_scenario_d :
    (createDirectMap dLocs dStats).map (fun a => a.seg.path_segments) =
      some [dPoints] ∧
    (createDirectMap dLocs dStats).map (fun a => polylines a.seg) =
      some [dPoints] ∧
    (createDirectMap dLocs dStats).map (fun a => polylineLabels a.seg) =
      some ["home"] ∧
    (createDirectMap dLocs dStats).map (fun a => a.seg.change_markers) =
      some [((55, 37), "office"), ((55, 37), "home")] := by decide

/-! ### The nearest-match defect (C2) -/

/-- Sample at 08:00. -/
def c2A : LocEvent := mkLev "2025-05-07 08:00:00" 55 37

/-- Sample at 17:00. -/
def c2B : LocEvent := mkLev "2025-05-07 17:00:00" 56 38

/-- C2, evaluation of the code at the failing input: for a status change
at 17:00:00 with samples at 08:00:00 and 17:00:00, the implementation's
selection (sort key `abs(len(str(x[0])[:19]) - len(status_time_str))`,
which is `0` for every canonical 19-character timestamp) returns the
08:00 sample, while the nearest-in-time sample demanded by the claim and
by the code's own comment is the 17:00 one. -/
theorem c2_nearest_bug_eval :
    statusMarkerLocation [c2A, c2B] (.str "2025-05-07 17:00:00") =
      some c2A ∧
    nearestLocationSpec [c2A, c2B] (.str "2025-05-07 17:00:00") =
      some c2B ∧
    c2A ≠ c2B := by decide

/-! ### The mixed-key sort defect (C5) -/

/-- C5, evaluation of the code at the failing input: merging a status
event carrying a `datetime` timestamp with a location event whose
timestamp string `"garbage"` does not parse gives `safe_sort_key` values
of different kinds (`datetime` vs `str`); Python's sort comparing them
raises `TypeError`, modelled here as `none`. -/
theorem c5_sort_raises_eval :
    mergeEvents [(.dt (encodeDt 2025 5 7 8 0 0), "office")]
      [mkLev "garbage" 55 37] = none := by decide

/-- C7: with no locations and no statuses the generator still returns an
artifact — centred on the Moscow default with the explanatory "no data"
marker and nothing else — and no exception escapes (the result is not
`none`). -/
theorem c7_empty_inputs_artifact :
    createDirectMap [] [] =
      some { center := moscow, no_data_marker := true,
             status_info_marker := false, seg := initSegState,
             route_ends := none } := rfl

/-! ### Movement-classifier theorems -/

/-- C8: the speed computation never divides by zero — the Python
evaluation (`pyDiv` raising on a zero divisor) always returns a value —
and that value is `(distance / seconds) * 3.6` for positive `seconds`
and `0` otherwise. -/
theorem c8_speed_kmh_total (distance_m seconds : ℚ) :
    speed_kmh_run distance_m seconds = some (speed_kmh distance_m seconds) ∧
    speed_kmh distance_m seconds =
      (if 0 < seconds then distance_m / seconds * (36 / 10) else 0) := by
  refine ⟨?_, rfl⟩
  by_cases h : 0 < seconds
  · have hne : seconds ≠ 0 := ne_of_gt h
    simp [speed_kmh_run, speed_kmh, pyDiv, h, hne]
  · simp [speed_kmh_run, speed_kmh, h]

/-- C6: when the new sample is at least 10 metres from a consulted
previous sample, the classifier stores `location_type = "moving"`,
resets the stationary accumulator to 0, clears the admin-alert flag,
and records exactly the uncapped speed `(d / dt) * 3.6`; the map
renderer then displays such a point as `fast_moving` precisely when that
computed speed exceeds 50 km/h. -/
theorem c6_moving_reset_uncapped (dist : ℚ → ℚ → ℚ → ℚ → ℚ)
    (parseTime : String → ℚ) (st : ChatState) (prev : LastLoc)
    (lat lon now : ℚ) (nowStr : String)
    (hprev : st.last_location = some prev)
    (hlat : prev.latitude ≠ 0) (hlon : prev.longitude ≠ 0)
    (hts : prev.timestamp ≠ "")
    (hd : 10 ≤ dist prev.latitude prev.longitude lat lon) :
    (handle_location_step dist parseTime st lat lon now nowStr).location_type
        = "moving" ∧
    (handle_location_step dist parseTime st lat lon now nowStr).state.movement_status
        = "moving" ∧
    (handle_location_step dist parseTime st lat lon now nowStr).state.stationary_duration
        = 0 ∧
    (handle_location_step dist parseTime st lat lon now nowStr).state.admin_notified
        = false ∧
    (handle_location_step dist parseTime st lat lon now nowStr).state.speed
        = speed_kmh (dist prev.latitude prev.longitude lat lon)
            (now - parseTime prev.timestamp) ∧
    render_movement_status
        (handle_location_step dist parseTime st lat lon now nowStr).location_type
        (handle_location_step dist parseTime st lat lon now nowStr).state.speed
      = (if 50 <
            (handle_location_step dist parseTime st lat lon now nowStr).state.speed
         then "fast_moving" else "moving") := by
  have hnotlt : ¬ dist prev.latitude prev.longitude lat lon < 10 :=
    not_lt.2 hd
  simp only [handle_location_step, hprev]
  rw [if_pos ⟨hlat, hlon, hts⟩, if_neg hnotlt]
  refine ⟨rfl, rfl, rfl, rfl, rfl, ?_⟩
  simp [render_movement_status]

def c6wPrev : LastLoc := { latitude := 1, longitude := 1, timestamp := "t" }

def c6wState : ChatState :=
  { movement_status := "unknown", stationary_duration := 120,
    admin_notified := true, speed := 0, last_location := some c6wPrev }

/-- Witness for C6 at a concrete input: previous sample at (1, 1), new
sample 560 m away after half a second. -/
theorem c6_moving_reset_uncapped_witness :
    (10 : ℚ) ≤ 560 ∧
    ((handle_location_step (fun _ _ _ _ => 560) (fun _ => 0) c6wState
          2 3 (1 / 2) "u").location_type = "moving" ∧
     (handle_location_step (fun _ _ _ _ => 560) (fun _ => 0) c6wState
          2 3 (1 / 2) "u").state.movement_status = "moving" ∧
     (handle_location_step (fun _ _ _ _ => 560) (fun _ => 0) c6wState
          2 3 (1 / 2) "u").state.stationary_duration = 0 ∧
     (handle_location_step (fun _ _ _ _ => 560) (fun _ => 0) c6wState
          2 3 (1 / 2) "u").state.admin_notified = false ∧
     (handle_location_step (fun _ _ _ _ => 560) (fun _ => 0) c6wState
          2 3 (1 / 2) "u").state.speed = speed_kmh 560 (1 / 2 - 0) ∧
     render_movement_status
         (handle_location_step (fun _ _ _ _ => 560) (fun _ => 0) c6wState
           2 3 (1 / 2) "u").location_type
         (handle_location_step (fun _ _ _ _ => 560) (fun _ => 0) c6wState
           2 3 (1 / 2) "u").state.speed
       = (if 50 < (handle_location_step (fun _ _ _ _ => 560) (fun _ => 0)
             c6wState 2 3 (1 / 2) "u").state.speed
          then "fast_moving" else "moving")) :=
  ⟨by norm_num,
   c6_moving_reset_uncapped (fun _ _ _ _ => 560) (fun _ => 0) c6wState
     c6wPrev 2 3 (1 / 2) "u" rfl (by norm_num [c6wPrev]) (by norm_num [c6wPrev])
     (by simp [c6wPrev]) (by norm_num)⟩

/-- C10 (implicit): a stored previous sample with latitude 0 or
longitude 0 is falsy for the guard
`if prev_lat and prev_lon and prev_time_str`, so the classifier behaves
exactly as if there were no previous sample: no distance or speed is
computed (any distance function gives the same result), the stationary
accumulator is untouched, and the sample keeps the default
`intermediate` type. -/
theorem c10_zero_coordinate_prev_ignored (dist : ℚ → ℚ → ℚ → ℚ → ℚ)
    (parseTime : String → ℚ) (st : ChatState) (prev : LastLoc)
    (lat lon now : ℚ) (nowStr : String)
    (hprev : st.last_location = some prev)
    (h0 : prev.latitude = 0 ∨ prev.longitude = 0) :
    handle_location_step dist parseTime st lat lon now nowStr =
      handle_location_step dist parseTime
        { st with last_location := none } lat lon now nowStr ∧
    (handle_location_step dist parseTime st lat lon now nowStr).location_type
        = "intermediate" ∧
    (handle_location_step dist parseTime st lat lon now nowStr).state.stationary_duration
        = st.stationary_duration ∧
    (handle_location_step dist parseTime st lat lon now nowStr).state.speed
        = st.speed ∧
    (handle_location_step dist parseTime st lat lon now nowStr).state.movement_status
        = st.movement_status := by
  have hcond : ¬ (prev.latitude ≠ 0 ∧ prev.longitude ≠ 0 ∧
      prev.timestamp ≠ "") := by
    rcases h0 with h | h
    · intro hcnd
      exact hcnd.1 h
    · intro hcnd
      exact hcnd.2.1 h
  simp only [handle_location_step, hprev]
  rw [if_neg hcond]
  exact ⟨rfl, rfl, rfl, rfl, rfl⟩

def c10wPrev : LastLoc := { latitude := 0, longitude := 55, timestamp := "t" }

def c10wState : ChatState :=
  { movement_status := "unknown", stationary_duration := 40,
    admin_notified := false, speed := 7, last_location := some c10wPrev }

/-- Witness for C10 at a concrete input: previous sample on the equator
(latitude 0). -/
theorem c10_zero_coordinate_prev_ignored_witness :
    (c10wPrev.latitude = 0 ∨ c10wPrev.longitude = 0) ∧
    (handle_location_step (fun _ _ _ _ => 999) (fun _ => 0) c10wState
        5 6 100 "u" =
      handle_location_step (fun _ _ _ _ => 999) (fun _ => 0)
        { c10wState with last_location := none } 5 6 100 "u" ∧
     (handle_location_step (fun _ _ _ _ => 999) (fun _ => 0) c10wState
        5 6 100 "u").location_type = "intermediate" ∧
     (handle_location_step (fun _ _ _ _ => 999) (fun _ => 0) c10wState
        5 6 100 "u").state.stationary_duration =
          c10wState.stationary_duration ∧
     (handle_location_step (fun _ _ _ _ => 999) (fun _ => 0) c10wState
        5 6 100 "u").state.speed = c10wState.speed ∧
     (handle_location_step (fun _ _ _ _ => 999) (fun _ => 0) c10wState
        5 6 100 "u").state.movement_status = c10wState.movement_status) :=
  ⟨Or.inl rfl,
   c10_zero_coordinate_prev_ignored (fun _ _ _ _ => 999) (fun _ => 0)
     c10wState c10wPrev 5 6 100 "u" rfl (Or.inl rfl)⟩

/-! ### Haversine theorems (C9) -/

lemma havA_self (lat lon : ℝ) : havA lat lon lat lon = 0 := by
  simp [havA]

lemma havA_comm (lat1 lon1 lat2 lon2 : ℝ) :
    havA lat1 lon1 lat2 lon2 = havA lat2 lon2 lat1 lon1 := by
  have h1 : ∀ x y : ℝ, Real.sin ((x - y) / 2) ^ 2 =
      Real.sin ((y - x) / 2) ^ 2 := by
    intro x y
    rw [show (x - y) / 2 = -((y - x) / 2) by ring, Real.sin_neg]
    ring
  unfold havA
  linear_combination h1 (lat2 * Real.pi / 180) (lat1 * Real.pi / 180) +
    Real.cos (lat1 * Real.pi / 180) * Real.cos (lat2 * Real.pi / 180) *
      h1 (lon2 * Real.pi / 180) (lon1 * Real.pi / 180)

lemma atan2_zero_one : atan2 0 1 = 0 := by
  rw [atan2, if_pos one_pos]
  norm_num [Real.arctan_zero]

/-- C9: for in-range coordinates the haversine distance of a point to
itself is 0, and the distance is symmetric in its two points. -/
theorem c9_haversine_refl_symm (alat alon blat blon : ℝ)
    (_ha1 : -90 ≤ alat) (_ha2 : alat ≤ 90) (_ha3 : -180 ≤ alon)
    (_ha4 : alon ≤ 180) (_hb1 : -90 ≤ blat) (_hb2 : blat ≤ 90)
    (_hb3 : -180 ≤ blon) (_hb4 : blon ≤ 180) :
    haversine_distance alat alon alat alon = 0 ∧
    haversine_distance alat alon blat blon =
      haversine_distance blat blon alat alon := by
  constructor
  · rw [haversine_distance, havA_self, Real.sqrt_zero, sub_zero,
      Real.sqrt_one, atan2_zero_one]
    ring
  · rw [haversine_distance, haversine_distance, havA_comm]

/-- Witness for C9 at the concrete in-range points (10, 20) and
(30, 40). -/
theorem c9_haversine_refl_symm_witness :
    ((-90 : ℝ) ≤ 10 ∧ (10 : ℝ) ≤ 90 ∧ (-180 : ℝ) ≤ 20 ∧ (20 : ℝ) ≤ 180 ∧
     (-90 : ℝ) ≤ 30 ∧ (30 : ℝ) ≤ 90 ∧ (-180 : ℝ) ≤ 40 ∧ (40 : ℝ) ≤ 180) ∧
    (haversine_distance 10 20 10 20 = 0 ∧
     haversine_distance 10 20 30 40 = haversine_distance 30 40 10 20) :=
  ⟨⟨by norm_num, by norm_num, by norm_num, by norm_num, by norm_num,
    by norm_num, by norm_num, by norm_num⟩,
   c9_haversine_refl_symm 10 20 30 40 (by norm_num) (by norm_num)
     (by norm_num) (by norm_num) (by norm_num) (by norm_num) (by norm_num)
     (by norm_num)⟩

end Sklo5
